import Mathlib

/-!
Verification development for the habitable-zone prioritisation pipeline
(`analysis/habitable_priority.py` and `analysis/validate_analysis.py`).

The Python code operates row-wise on pandas DataFrames; every vectorised
column assignment is an element-wise map, so the embedding models a table
as a `List` of row structures and each column formula as a function of one
row.  Missing values (NaN in pandas) are modelled with `Option`; numbers
are real (`ℝ`) because the scoring model uses `exp`, `log10` and real
powers.  Fallible code paths are modelled with `Except`.
-/

namespace HabitablePriority

/-- Embeds the constant `SOLAR_RADIUS_TO_EARTH` (conversion between solar and
Earth radii used by the transit-depth estimate). -/
def SOLAR_RADIUS_TO_EARTH : ℝ := 109.076

/-- Embeds the constant `EARTH_EQ_TEMP` (reference equilibrium temperature in
kelvin used by the insolation proxy). -/
def EARTH_EQ_TEMP : ℝ := 255.0

/-- Embeds `np.clip(x, lo, hi)`: clamp a value into `[lo, hi]`. -/
def np_clip {α : Type} [LinearOrder α] (x lo hi : α) : α := min (max x lo) hi

/-- Embeds `trapezoidal_membership(values, lower_start, lower_full, upper_full,
upper_end)`: `min(clip((v - a)/(b - a), 0, 1), clip((d - v)/(d - c), 0, 1), 1)`,
stated generically over an ordered field and used at `ℝ`, as at every call
site of the scoring engine. -/
def trapezoidal_membership {α : Type} [LinearOrderedField α]
(value lower_start lower_full upper_full upper_end : α) : α :=
  min (min (np_clip ((value - lower_start) / (lower_full - lower_start)) 0 1)
    (np_clip ((upper_end - value) / (upper_end - upper_full)) 0 1)) 1

/-- Embeds `logistic_decreasing(values, midpoint, width)`:
`1 / (1 + exp((v - midpoint) / width))`. -/
noncomputable def logistic_decreasing (value midpoint width : ℝ) : ℝ :=
  1 / (1 + Real.exp ((value - midpoint) / width))

/-- Embeds `logistic_increasing(values, midpoint, width)`:
`1 / (1 + exp(-(v - midpoint) / width))`. -/
noncomputable def logistic_increasing (value midpoint width : ℝ) : ℝ :=
  1 / (1 + Real.exp ((-(value - midpoint)) / width))

/-- Embeds `compute_transit_depth_ppm(radius_earth, star_radius_solar)`:
`(radius_earth / (star_radius_solar * 109.076))^2 * 1e6`. -/
noncomputable def compute_transit_depth_ppm (radius_earth star_radius_solar : ℝ) : ℝ :=
  (radius_earth / (star_radius_solar * SOLAR_RADIUS_TO_EARTH)) ^ (2 : ℕ) * 1e6

/-- The three `priority_band` labels `["Context", "Follow-up", "High Priority"]`. -/
inductive Band : Type where
  | context : Band
  | followUp : Band
  | highPriority : Band
deriving DecidableEq

/-- One row of the raw planet catalog (after `load_planet_catalog`).  Every
column that pandas may hold as NaN is an `Option`; the required columns are
exactly those in `REQUIRED_COLUMNS`, plus the optional `pl_insol` and
`pl_bmasse` columns used with explicit NaN handling. -/
structure RawRow : Type where
  pl_name : Option String
  hostname : Option String
  pl_eqt : Option ℝ
  pl_rade : Option ℝ
  pl_orbper : Option ℝ
  st_teff : Option ℝ
  st_rad : Option ℝ
  sy_vmag : Option ℝ
  sy_dist : Option ℝ
  sy_snum : Option ℝ
  pl_insol : Option ℝ
  pl_bmasse : Option ℝ

/-- One row surviving `select_habitable_inputs`: all required columns present,
plus the derived `pl_insol_effective` and `pl_bmasse_filled` columns. -/
structure SelectedRow : Type where
  pl_name : String
  hostname : String
  pl_eqt : ℝ
  pl_rade : ℝ
  pl_orbper : ℝ
  st_teff : ℝ
  st_rad : ℝ
  sy_vmag : ℝ
  sy_dist : ℝ
  sy_snum : ℝ
  pl_insol : Option ℝ
  pl_bmasse : Option ℝ
  pl_insol_effective : ℝ
  pl_bmasse_filled : ℝ

/-- Embeds the per-row content of `select_habitable_inputs`: the
`dropna(REQUIRED_COLUMNS)` step (all required fields present), the insolation
proxy `(pl_eqt / 255)^4` filling missing `pl_insol`, the rocky / sub-Neptune
mass proxy (`rade^3.7` for `rade ≤ 1.5`, else `1.5 * rade^2.3`) filling
missing `pl_bmasse`, and the conjunction of all pandas `between` bounds (all
inclusive) plus `sy_dist ≤ 1000`.  The source applies the bound filters in
sequence on whole columns; per row that is the same as one conjunction, and
the proxy values it computes for a row do not depend on which filters have
already run. -/
noncomputable def select_row (r : RawRow) : Option SelectedRow :=
  match r.pl_name, r.hostname, r.pl_eqt, r.pl_rade, r.pl_orbper, r.st_teff,
      r.st_rad, r.sy_vmag, r.sy_dist, r.sy_snum with
  | some n, some h, some eqt, some rade, some orbper, some teff, some strad,
      some vmag, some dist, some snum =>
    let insol_eff := r.pl_insol.getD ((eqt / EARTH_EQ_TEMP) ^ (4 : ℕ))
    let mass_filled := r.pl_bmasse.getD
      (if rade ≤ 1.5 then Real.rpow rade 3.7 else 1.5 * Real.rpow rade 2.3)
    if (150 ≤ eqt ∧ eqt ≤ 450) ∧ (0.1 ≤ insol_eff ∧ insol_eff ≤ 3.0) ∧
        (0.4 ≤ rade ∧ rade ≤ 3.5) ∧ (0.2 ≤ mass_filled ∧ mass_filled ≤ 15) ∧
        (3 ≤ orbper ∧ orbper ≤ 800) ∧ (3000 ≤ teff ∧ teff ≤ 7200) ∧
        (0.2 ≤ strad ∧ strad ≤ 2.5) ∧ (0 ≤ vmag ∧ vmag ≤ 18) ∧ dist ≤ 1000
    then some ⟨n, h, eqt, rade, orbper, teff, strad, vmag, dist, snum,
      r.pl_insol, r.pl_bmasse, insol_eff, mass_filled⟩
    else none
  | _, _, _, _, _, _, _, _, _, _ => none

/-- Embeds `select_habitable_inputs`: keep exactly the rows passing
`select_row`, in order. -/
noncomputable def select_habitable_inputs (df : List RawRow) : List SelectedRow :=
  df.filterMap select_row

/-- Embeds the column assignment `temp_score = trapezoidal_membership(pl_eqt,
180, 240, 320, 400)`. -/
noncomputable def temp_score (r : SelectedRow) : ℝ :=
  trapezoidal_membership r.pl_eqt 180 240 320 400

/-- Embeds `insolation_score = trapezoidal_membership(pl_insol_effective,
0.2, 0.32, 1.7, 2.2)`. -/
noncomputable def insolation_score (r : SelectedRow) : ℝ :=
  trapezoidal_membership r.pl_insol_effective 0.2 0.32 1.7 2.2

/-- Embeds `period_score = trapezoidal_membership(log10(pl_orbper), log10 15,
log10 30, log10 400, log10 800)`. -/
noncomputable def period_score (r : SelectedRow) : ℝ :=
  trapezoidal_membership (Real.logb 10 r.pl_orbper)
    (Real.logb 10 15) (Real.logb 10 30) (Real.logb 10 400) (Real.logb 10 800)

/-- Embeds `stellar_temp_score = trapezoidal_membership(st_teff, 3300, 4100,
6400, 7200)`. -/
noncomputable def stellar_temp_score (r : SelectedRow) : ℝ :=
  trapezoidal_membership r.st_teff 3300 4100 6400 7200

/-- Embeds `climate_score = data[CLIMATE_COMPONENTS].mean(axis=1)`: the
unweighted mean of the four climate sub-scores. -/
noncomputable def climate_score (r : SelectedRow) : ℝ :=
  (temp_score r + insolation_score r + period_score r + stellar_temp_score r) / 4

/-- Embeds `radius_score = trapezoidal_membership(pl_rade, 0.5, 0.85, 1.6, 2.5)`. -/
noncomputable def radius_score (r : SelectedRow) : ℝ :=
  trapezoidal_membership r.pl_rade 0.5 0.85 1.6 2.5

/-- Embeds `mass_score = trapezoidal_membership(pl_bmasse_filled, 0.3, 0.7,
5.0, 10.0)`. -/
noncomputable def mass_score (r : SelectedRow) : ℝ :=
  trapezoidal_membership r.pl_bmasse_filled 0.3 0.7 5.0 10.0

/-- Embeds `structure_score = data[STRUCTURE_COMPONENTS].mean(axis=1)`: the
unweighted mean of the two structure sub-scores. -/
noncomputable def structure_score (r : SelectedRow) : ℝ :=
  (radius_score r + mass_score r) / 2

/-- Embeds the `transit_depth_ppm` column. -/
noncomputable def transit_depth_ppm (r : SelectedRow) : ℝ :=
  compute_transit_depth_ppm r.pl_rade r.st_rad

/-- Embeds `transit_visibility_score = logistic_increasing(log10(clip(depth,
5, None)), 2.6, 0.35)`; `np.clip(x, 5, None)` is `max x 5`. -/
noncomputable def transit_visibility_score (r : SelectedRow) : ℝ :=
  logistic_increasing (Real.logb 10 (max (transit_depth_ppm r) 5)) 2.6 0.35

/-- Embeds `brightness_score = logistic_decreasing(sy_vmag, 11.5, 1.2)`. -/
noncomputable def brightness_score (r : SelectedRow) : ℝ :=
  logistic_decreasing r.sy_vmag 11.5 1.2

/-- Embeds `distance_score = logistic_decreasing(log10(sy_dist), log10 80, 0.4)`.
This is the idealisation at total `Real.logb`; in the source `np.log10` is NaN
for negative distances, which the selector admits (it bounds `sy_dist` above
by 1000 but not below) — `distance_score_float` models that float semantics
and agrees with this definition whenever `0 < sy_dist`. -/
noncomputable def distance_score (r : SelectedRow) : ℝ :=
  logistic_decreasing (Real.logb 10 r.sy_dist) (Real.logb 10 80) 0.4

/-- Embeds `observability_score`: the `OBSERVABILITY_COMPONENT_WEIGHTS`
weighted sum (brightness 0.4, transit visibility 0.35, distance 0.25) divided
by the sum of those weights. -/
noncomputable def observability_score (r : SelectedRow) : ℝ :=
  (brightness_score r * 0.4 + transit_visibility_score r * 0.35 +
    distance_score r * 0.25) / (0.4 + 0.35 + 0.25)

/-- Embeds `system_score = np.where(sy_snum <= 1, 1.0,
clip(1.0 - 0.25 * (sy_snum - 1), 0.45, 0.85))`. -/
noncomputable def system_score (r : SelectedRow) : ℝ :=
  if r.sy_snum ≤ 1 then 1.0 else np_clip (1.0 - 0.25 * (r.sy_snum - 1)) 0.45 0.85

/-- Embeds the `priority_score` column: the `AGGREGATE_WEIGHTS` combination
(climate 0.45, structure 0.25, observability 0.22, system 0.08) divided by
`total_weight`, the sum of the four weights. -/
noncomputable def priority_score (r : SelectedRow) : ℝ :=
  (climate_score r * 0.45 + structure_score r * 0.25 +
    observability_score r * 0.22 + system_score r * 0.08) /
    (0.45 + 0.25 + 0.22 + 0.08)

/-- IEEE float semantics of the `distance_score` chain on one `sy_dist`
value, with `none` for NaN: `np.log10` returns NaN for negative input, so
the logistic propagates NaN; at zero `np.log10` returns `-inf` and the
logistic gives `1/(1+exp(-inf)) = 1/(1+0) = 1`; for positive input every
operation is real-valued and the chain is exactly `distance_score`. -/
noncomputable def distance_score_float (d : ℝ) : Option ℝ :=
  if d < 0 then none
  else if d = 0 then some 1
  else some (logistic_decreasing (Real.logb 10 d) (Real.logb 10 80) 0.4)

/-- Float semantics of the observability pillar: a NaN `distance_score`
propagates through the weighted mean (every other sub-score of a selected
row is real-valued, since their inputs are bounded by the selector). -/
noncomputable def observability_score_float (r : SelectedRow) : Option ℝ :=
  (distance_score_float r.sy_dist).map (fun ds =>
    (brightness_score r * 0.4 + transit_visibility_score r * 0.35 +
      ds * 0.25) / (0.4 + 0.35 + 0.25))

/-- Float semantics of the aggregate: a NaN observability pillar propagates
into `priority_score`. -/
noncomputable def priority_score_float (r : SelectedRow) : Option ℝ :=
  (observability_score_float r).map (fun os =>
    (climate_score r * 0.45 + structure_score r * 0.25 + os * 0.22 +
      system_score r * 0.08) / (0.45 + 0.25 + 0.22 + 0.08))

/-- Embeds `pd.cut(priority_score, bins=[0, 0.58, 0.7, 1.0], labels=labels,
include_lowest=True)`.  `pd.cut` with the default `right=True` produces the
right-closed intervals `[0, 0.58]`, `(0.58, 0.7]`, `(0.7, 1.0]`
(`include_lowest` closes the first interval on the left); values outside
`[0, 1]` get NaN, modelled as `none`. -/
noncomputable def priority_band (s : ℝ) : Option Band :=
  if s < 0 then none
  else if s ≤ 0.58 then some Band.context
  else if s ≤ 0.7 then some Band.followUp
  else if s ≤ 1 then some Band.highPriority
  else none

/-- One row of the scored table returned by `compute_priority_scores`
(the `ordered_columns` selection). -/
structure ScoredRow : Type where
  pl_name : String
  hostname : String
  pl_eqt : ℝ
  pl_rade : ℝ
  pl_orbper : ℝ
  st_teff : ℝ
  st_rad : ℝ
  sy_vmag : ℝ
  sy_dist : ℝ
  sy_snum : ℝ
  pl_insol : Option ℝ
  pl_insol_effective : ℝ
  pl_bmasse : Option ℝ
  pl_bmasse_filled : ℝ
  temp_score : ℝ
  insolation_score : ℝ
  period_score : ℝ
  stellar_temp_score : ℝ
  climate_score : ℝ
  radius_score : ℝ
  mass_score : ℝ
  structure_score : ℝ
  transit_depth_ppm : ℝ
  transit_visibility_score : ℝ
  brightness_score : ℝ
  distance_score : ℝ
  observability_score : ℝ
  system_score : ℝ
  priority_score : ℝ
  priority_band : Option Band

/-- All column assignments of `compute_priority_scores` for one row. -/
noncomputable def score_row (r : SelectedRow) : ScoredRow :=
  { pl_name := r.pl_name
    hostname := r.hostname
    pl_eqt := r.pl_eqt
    pl_rade := r.pl_rade
    pl_orbper := r.pl_orbper
    st_teff := r.st_teff
    st_rad := r.st_rad
    sy_vmag := r.sy_vmag
    sy_dist := r.sy_dist
    sy_snum := r.sy_snum
    pl_insol := r.pl_insol
    pl_insol_effective := r.pl_insol_effective
    pl_bmasse := r.pl_bmasse
    pl_bmasse_filled := r.pl_bmasse_filled
    temp_score := temp_score r
    insolation_score := insolation_score r
    period_score := period_score r
    stellar_temp_score := stellar_temp_score r
    climate_score := climate_score r
    radius_score := radius_score r
    mass_score := mass_score r
    structure_score := structure_score r
    transit_depth_ppm := transit_depth_ppm r
    transit_visibility_score := transit_visibility_score r
    brightness_score := brightness_score r
    distance_score := distance_score r
    observability_score := observability_score r
    system_score := system_score r
    priority_score := priority_score r
    priority_band := priority_band (priority_score r) }

/-- Embeds `compute_priority_scores`: score every row, then
`sort_values("priority_score", ascending=False)`.  The sort is modelled by
`mergeSort` with the key comparison `priority_score` descending; pandas'
default sort kind guarantees the key order of the result but not the relative
order of tied rows, so only permutation and sortedness facts are read off
this model. -/
noncomputable def compute_priority_scores (rows : List SelectedRow) : List ScoredRow :=
  (rows.map score_row).mergeSort
    (fun a b => decide (b.priority_score ≤ a.priority_score))

/-- Embeds pandas `Series.str.strip()` (also Python `str.strip()`): remove
leading and trailing whitespace.  Written structurally over the character
list so that it evaluates inside the kernel. -/
def strip (s : String) : String :=
  ⟨((s.data.dropWhile Char.isWhitespace).reverse.dropWhile Char.isWhitespace).reverse⟩

/-- One row of the authoritative reference table.  The source inserts a
`confidence` column of NaN when the file has none, so a table without that
column is one whose rows all carry `none`. -/
structure AuthRow : Type where
  pl_name : String
  confidence : Option ℝ

/-- The two exceptions `main` can raise: the `ValueError` for an empty
filtered selection and the `FileNotFoundError` from
`load_authoritative_sample`. -/
inductive PipelineError : Type where
  | emptyInputs : PipelineError
  | authoritativeUnavailable : PipelineError
deriving DecidableEq

/-- Embeds `load_authoritative_sample` together with
`download_authoritative_catalog`: return the cached table when the cache file
exists; otherwise return the downloaded table when the download succeeds
(`download_authoritative_catalog` returns `None` on `URLError`, modelled by
the `remote` argument being `none`); otherwise raise `FileNotFoundError`,
modelled as `Except.error`.  Writing the downloaded table back to the cache
is I/O and outside the model. -/
def load_authoritative_sample (cache remote : Option (List AuthRow)) :
    Except PipelineError (List AuthRow) :=
  match cache with
  | some t => Except.ok t
  | none =>
    match remote with
    | some t => Except.ok t
    | none => Except.error PipelineError.authoritativeUnavailable

/-- One row of the table returned by `compare_with_authoritative`: all scored
columns plus the left-joined `phl_confidence` column (renamed from the
reference table's `confidence`). -/
structure ComparedRow : Type where
  row : ScoredRow
  phl_confidence : Option ℝ

/-- Embeds `compare_with_authoritative`: strip the reference names, then
left-merge the scored table with the reference on `pl_name`.  A pandas left
merge keeps every left row; a row with no name match gets NaN (`none`) in the
joined column, and a row with several matches is repeated once per match. -/
def compare_with_authoritative (priority : List ScoredRow)
    (authoritative : List AuthRow) : List ComparedRow :=
  let authStripped := authoritative.map (fun a => AuthRow.mk (strip a.pl_name) a.confidence)
  priority.flatMap (fun p =>
    match authStripped.filter (fun a => a.pl_name == p.pl_name) with
    | [] => [ComparedRow.mk p none]
    | ms => ms.map (fun a => ComparedRow.mk p a.confidence))

/-- Embeds the decision flow of `main` after `load_planet_catalog` (file I/O,
out of scope): filter the catalog, raise `ValueError` when the selection is
empty, score, then call `compare_with_authoritative`.  In the source that
function itself calls `load_authoritative_sample`; the model hoists that call
here, which preserves behaviour: its `FileNotFoundError` propagates uncaught
(there is no try/except anywhere on the path).  The exports and plots are
I/O and carry no decisions. -/
noncomputable def main (catalog : List RawRow) (cache remote : Option (List AuthRow)) :
    Except PipelineError (List ScoredRow × List ComparedRow) :=
  let inputs := select_habitable_inputs catalog
  if inputs.isEmpty then Except.error PipelineError.emptyInputs
  else
    let priority := compute_priority_scores inputs
    match load_authoritative_sample cache remote with
    | Except.error e => Except.error e
    | Except.ok authoritative =>
      Except.ok (priority, compare_with_authoritative priority authoritative)

end HabitablePriority

namespace ValidateAnalysis

open HabitablePriority

/-- One row of the stored `habitable_priority_scores.csv` table, restricted to
the columns `validate_priority_table` reads. -/
structure StoredRow : Type where
  pl_name : String
  priority_score : ℝ
  priority_band : Option Band

/-- Embeds the `ValidationRecord` dataclass.  Where the source interpolates
floating-point values into the `details` string the model stores `""`; the
detail text is presentation only and no check reads it back. -/
structure ValidationRecord : Type where
  name : String
  status : String
  details : String

/-- Pandas `==` on two band columns: NaN compares unequal to everything,
including NaN. -/
def band_eq_py : Option Band → Option Band → Bool
  | some a, some b => decide (a = b)
  | _, _ => false

/-- The exception `validate_priority_table` can raise: Python's
`ZeroDivisionError` from `1 / len(priority)` when the recomputed priority
table is empty. -/
inductive HarnessError : Type where
  | zeroDivisionError : HarnessError
deriving DecidableEq

/-- Embeds `validate_priority_table`: recompute the priority table from the
catalog, then — exactly as in the source — if the stored table is missing
(`none`) return the single availability-failure record, else produce the
four records (name coverage, score equality with tolerance `1e-6`,
band-label equality, and the `np.isclose` high-priority-share check, whose
failure status is `"warn"`).  `float(nan) < 1e-6` is false in Python, so an
empty merge makes the score-equality check fail.  When the recomputed
priority table is empty and the stored table exists, the source evaluates
`1 / len(priority)` with length 0 and raises `ZeroDivisionError`, discarding
the records built so far, modelled as `Except.error`. -/
noncomputable def validate_priority_table (catalog : List RawRow)
    (stored : Option (List StoredRow)) : Except HarnessError (List ValidationRecord) :=
  let priority := compute_priority_scores (select_habitable_inputs catalog)
  match stored with
  | none =>
    Except.ok
      [⟨"Priority table availability", "fail", "Stored priority scores not found"⟩]
  | some st =>
    let priorityNames := priority.map (fun p => p.pl_name)
    let storedNames := st.map (fun s => s.pl_name)
    let missing := priorityNames.filter (fun n => ¬ storedNames.contains n)
    let extra := storedNames.filter (fun n => ¬ priorityNames.contains n)
    let coverage : ValidationRecord :=
      ⟨"Priority candidate coverage",
        if missing.isEmpty ∧ extra.isEmpty then "pass" else "fail", ""⟩
    let merged := priority.flatMap (fun p =>
      (st.filter (fun s => s.pl_name == p.pl_name)).map (fun s => (p, s)))
    let scoreEq : ValidationRecord :=
      ⟨"Priority score equality",
        if ¬ merged.isEmpty ∧
            ∀ pr ∈ merged, |pr.1.priority_score - pr.2.priority_score| < 1e-6
        then "pass" else "fail", ""⟩
    let bandsMatch := merged.all (fun pr => band_eq_py pr.1.priority_band pr.2.priority_band)
    let bands : ValidationRecord :=
      ⟨"Priority band labels", if bandsMatch then "pass" else "fail",
        if bandsMatch then "Priority bands identical" else "Priority band mismatch detected"⟩
    if priority.isEmpty then Except.error HarnessError.zeroDivisionError
    else
      let n := priority.length
      let share : ℝ :=
        (priority.countP (fun p => decide (p.priority_band = some Band.highPriority)) : ℝ) / n
      let proportion : ValidationRecord :=
        ⟨"High-priority proportion",
          if |share - 1 / (n : ℝ)| ≤ 1e-8 + 1e-5 * |1 / (n : ℝ)| then "pass" else "warn", ""⟩
      Except.ok [coverage, scoreEq, bands, proportion]

end ValidateAnalysis

namespace HabitablePriority

lemma le_np_clip {α : Type} [LinearOrder α] (x lo hi : α) (h : lo ≤ hi) :
    lo ≤ np_clip x lo hi :=
  le_min (le_max_right _ _) h

lemma np_clip_le_hi {α : Type} [LinearOrder α] (x lo hi : α) : np_clip x lo hi ≤ hi :=
  min_le_right _ _

lemma trapezoidal_membership_nonneg {α : Type} [LinearOrderedField α]
    (v a b c d : α) : 0 ≤ trapezoidal_membership v a b c d :=
  le_min (le_min (le_np_clip _ _ _ zero_le_one) (le_np_clip _ _ _ zero_le_one))
    zero_le_one

lemma trapezoidal_membership_le_one {α : Type} [LinearOrderedField α]
    (v a b c d : α) : trapezoidal_membership v a b c d ≤ 1 :=
  min_le_right _ _

lemma logistic_decreasing_nonneg (v m w : ℝ) : 0 ≤ logistic_decreasing v m w := by
  unfold logistic_decreasing
  positivity

lemma logistic_decreasing_le_one (v m w : ℝ) : logistic_decreasing v m w ≤ 1 := by
  unfold logistic_decreasing
  rw [div_le_one (by positivity)]
  linarith [Real.exp_pos ((v - m) / w)]

lemma logistic_increasing_nonneg (v m w : ℝ) : 0 ≤ logistic_increasing v m w := by
  unfold logistic_increasing
  positivity

lemma logistic_increasing_le_one (v m w : ℝ) : logistic_increasing v m w ≤ 1 := by
  unfold logistic_increasing
  rw [div_le_one (by positivity)]
  linarith [Real.exp_pos ((-(v - m)) / w)]

lemma temp_score_bounds (r : SelectedRow) : 0 ≤ temp_score r ∧ temp_score r ≤ 1 := by
  unfold temp_score
  exact ⟨trapezoidal_membership_nonneg _ _ _ _ _, trapezoidal_membership_le_one _ _ _ _ _⟩

lemma insolation_score_bounds (r : SelectedRow) :
    0 ≤ insolation_score r ∧ insolation_score r ≤ 1 := by
  unfold insolation_score
  exact ⟨trapezoidal_membership_nonneg _ _ _ _ _, trapezoidal_membership_le_one _ _ _ _ _⟩

lemma period_score_bounds (r : SelectedRow) : 0 ≤ period_score r ∧ period_score r ≤ 1 := by
  unfold period_score
  exact ⟨trapezoidal_membership_nonneg _ _ _ _ _, trapezoidal_membership_le_one _ _ _ _ _⟩

lemma stellar_temp_score_bounds (r : SelectedRow) :
    0 ≤ stellar_temp_score r ∧ stellar_temp_score r ≤ 1 := by
  unfold stellar_temp_score
  exact ⟨trapezoidal_membership_nonneg _ _ _ _ _, trapezoidal_membership_le_one _ _ _ _ _⟩

lemma climate_score_bounds (r : SelectedRow) :
    0 ≤ climate_score r ∧ climate_score r ≤ 1 := by
  obtain ⟨h1, h2⟩ := temp_score_bounds r
  obtain ⟨h3, h4⟩ := insolation_score_bounds r
  obtain ⟨h5, h6⟩ := period_score_bounds r
  obtain ⟨h7, h8⟩ := stellar_temp_score_bounds r
  unfold climate_score
  constructor <;> linarith

lemma radius_score_bounds (r : SelectedRow) : 0 ≤ radius_score r ∧ radius_score r ≤ 1 := by
  unfold radius_score
  exact ⟨trapezoidal_membership_nonneg _ _ _ _ _, trapezoidal_membership_le_one _ _ _ _ _⟩

lemma mass_score_bounds (r : SelectedRow) : 0 ≤ mass_score r ∧ mass_score r ≤ 1 := by
  unfold mass_score
  exact ⟨trapezoidal_membership_nonneg _ _ _ _ _, trapezoidal_membership_le_one _ _ _ _ _⟩

lemma structure_score_bounds (r : SelectedRow) :
    0 ≤ structure_score r ∧ structure_score r ≤ 1 := by
  obtain ⟨h1, h2⟩ := radius_score_bounds r
  obtain ⟨h3, h4⟩ := mass_score_bounds r
  unfold structure_score
  constructor <;> linarith

lemma brightness_score_bounds (r : SelectedRow) :
    0 ≤ brightness_score r ∧ brightness_score r ≤ 1 :=
  ⟨logistic_decreasing_nonneg _ _ _, logistic_decreasing_le_one _ _ _⟩

lemma transit_visibility_score_bounds (r : SelectedRow) :
    0 ≤ transit_visibility_score r ∧ transit_visibility_score r ≤ 1 :=
  ⟨logistic_increasing_nonneg _ _ _, logistic_increasing_le_one _ _ _⟩

lemma distance_score_bounds (r : SelectedRow) :
    0 ≤ distance_score r ∧ distance_score r ≤ 1 :=
  ⟨logistic_decreasing_nonneg _ _ _, logistic_decreasing_le_one _ _ _⟩

lemma observability_score_bounds (r : SelectedRow) :
    0 ≤ observability_score r ∧ observability_score r ≤ 1 := by
  obtain ⟨h1, h2⟩ := brightness_score_bounds r
  obtain ⟨h3, h4⟩ := transit_visibility_score_bounds r
  obtain ⟨h5, h6⟩ := distance_score_bounds r
  unfold observability_score
  rw [show (0.4 + 0.35 + 0.25 : ℝ) = 1 by norm_num, div_one]
  constructor <;> linarith

lemma system_score_bounds (r : SelectedRow) : 0 ≤ system_score r ∧ system_score r ≤ 1 := by
  unfold system_score
  split_ifs with h
  · norm_num
  · have hlo := le_np_clip (1.0 - 0.25 * (r.sy_snum - 1)) 0.45 0.85 (by norm_num)
    have hhi := np_clip_le_hi (1.0 - 0.25 * (r.sy_snum - 1)) 0.45 0.85
    constructor <;> linarith

lemma priority_score_bounds (r : SelectedRow) :
    0 ≤ priority_score r ∧ priority_score r ≤ 1 := by
  obtain ⟨h1, h2⟩ := climate_score_bounds r
  obtain ⟨h3, h4⟩ := structure_score_bounds r
  obtain ⟨h5, h6⟩ := observability_score_bounds r
  obtain ⟨h7, h8⟩ := system_score_bounds r
  unfold priority_score
  rw [show (0.45 + 0.25 + 0.22 + 0.08 : ℝ) = 1 by norm_num, div_one]
  constructor <;> linarith

/-- A raw catalog row with Earth-like measured values; it satisfies every
plausibility bound of the input selector. -/
noncomputable def earthRaw : RawRow :=
  ⟨some ("Earth-analog"), some ("Sun-analog"), some 288, some 1, some 365,
    some 5778, some 1, some 6, some 10, some 1, some 1, some 1⟩

/-- The selected row the input selector produces from `earthRaw`. -/
noncomputable def earthSel : SelectedRow :=
  ⟨"Earth-analog", "Sun-analog", 288, 1, 365, 5778, 1, 6, 10, 1,
    some 1, some 1, 1, 1⟩

lemma select_row_earth : select_row earthRaw = some earthSel := by
  simp only [select_row, earthRaw, Option.getD_some]
  rw [if_pos (by norm_num)]
  rfl

lemma select_earth : select_habitable_inputs [earthRaw] = [earthSel] := by
  simp [select_habitable_inputs, select_row_earth]

/-- The scored row produced from `earthSel`. -/
noncomputable def earthScored : ScoredRow := score_row earthSel

lemma compute_single : compute_priority_scores [earthSel] = [earthScored] := by
  simp [compute_priority_scores, earthScored]

lemma earthScored_mem_sel : earthScored ∈ compute_priority_scores [earthSel] := by
  rw [compute_single]
  exact List.mem_singleton_self _

lemma earthScored_mem_raw :
    earthScored ∈ compute_priority_scores (select_habitable_inputs [earthRaw]) := by
  rw [select_earth]
  exact earthScored_mem_sel

/-- A raw catalog row identical to `earthRaw` except for a distance of
`-5` parsec: the selector only bounds `sy_dist` above (`<= 1000`), so this
row passes every filter. -/
noncomputable def negDistRaw : RawRow :=
  ⟨some ("Negative-distance"), some ("Host"), some 288, some 1, some 365,
    some 5778, some 1, some 6, some (-5), some 1, some 1, some 1⟩

/-- The selected row the input selector produces from `negDistRaw`. -/
noncomputable def negDistSel : SelectedRow :=
  ⟨"Negative-distance", "Host", 288, 1, 365, 5778, 1, 6, -5, 1,
    some 1, some 1, 1, 1⟩

lemma select_row_negDist : select_row negDistRaw = some negDistSel := by
  simp only [select_row, negDistRaw, Option.getD_some]
  rw [if_pos (by norm_num)]
  rfl

lemma select_negDist : select_habitable_inputs [negDistRaw] = [negDistSel] := by
  simp [select_habitable_inputs, select_row_negDist]

lemma negDistScored_mem :
    score_row negDistSel ∈ compute_priority_scores (select_habitable_inputs [negDistRaw]) := by
  rw [select_negDist]
  simp [compute_priority_scores, List.mem_mergeSort]

lemma distance_score_float_negDist : distance_score_float negDistSel.sy_dist = none := by
  show distance_score_float (-5 : ℝ) = none
  unfold distance_score_float
  rw [if_pos (by norm_num : (-5 : ℝ) < 0)]

lemma observability_score_float_negDist : observability_score_float negDistSel = none := by
  unfold observability_score_float
  rw [distance_score_float_negDist]
  rfl

lemma priority_score_float_negDist : priority_score_float negDistSel = none := by
  unfold priority_score_float
  rw [observability_score_float_negDist]
  rfl

/-- A scored row whose score columns are all zero, used to exercise the
cross-checker, which reads only `pl_name`. -/
noncomputable def namedScored (n : String) : ScoredRow :=
  ⟨n, "", 0, 0, 0, 0, 0, 0, 0, 0, none, 0, none, 0,
    0, 0, 0, 0, 0, 0, 0, 0, 0, 0, 0, 0, 0, 0, 0, none⟩

end HabitablePriority

open HabitablePriority ValidateAnalysis

/-- Claim C1, counterexample: the band map the Scoring Engine applies assigns
a `priority_score` of exactly `0.58` to "Context" (not "Follow-up" as
claimed) and exactly `0.70` to "Follow-up" (not "High Priority"): `pd.cut`
closes each interval on the right, not on the left. -/
theorem C1_counterexample_band_boundaries :
    priority_band (0.58 : ℝ) = some Band.context ∧
    priority_band (0.58 : ℝ) ≠ some Band.followUp ∧
    priority_band (0.7 : ℝ) = some Band.followUp ∧
    priority_band (0.7 : ℝ) ≠ some Band.highPriority := by
  refine ⟨by norm_num [priority_band], ?_, by norm_num [priority_band], ?_⟩ <;>
    · norm_num [priority_band]
      decide

/-- Claim C1, amended: band assignment partitions `[0, 1]` at `0.58` and
`0.70` with boundaries inclusive on the upper edge: `[0, 0.58]` maps to
"Context", `(0.58, 0.70]` to "Follow-up", `(0.70, 1]` to "High Priority", so
a score of exactly `0.58` is "Context" and exactly `0.70` is "Follow-up";
every scored row's `priority_band` is `priority_band` of its
`priority_score`. -/
theorem C1_band_partition_upper_inclusive :
    (∀ s : ℝ, 0 ≤ s → s ≤ 0.58 → priority_band s = some Band.context) ∧
    (∀ s : ℝ, 0.58 < s → s ≤ 0.7 → priority_band s = some Band.followUp) ∧
    (∀ s : ℝ, 0.7 < s → s ≤ 1 → priority_band s = some Band.highPriority) ∧
    priority_band (0.58 : ℝ) = some Band.context ∧
    priority_band (0.7 : ℝ) = some Band.followUp ∧
    (∀ (rows : List SelectedRow) (r : ScoredRow),
      r ∈ compute_priority_scores rows →
        r.priority_band = priority_band r.priority_score) := by
  refine ⟨?_, ?_, ?_, ?_, ?_, ?_⟩
  · intro s h0 h58
    unfold priority_band
    rw [if_neg (not_lt.mpr h0), if_pos h58]
  · intro s h58 h7
    unfold priority_band
    rw [if_neg (not_lt.mpr (by linarith)), if_neg (not_le.mpr h58), if_pos h7]
  · intro s h7 h1
    unfold priority_band
    rw [if_neg (not_lt.mpr (by linarith)), if_neg (not_le.mpr (by linarith)),
      if_neg (not_le.mpr h7), if_pos h1]
  · unfold priority_band
    norm_num
  · unfold priority_band
    norm_num
  · intro rows r hr
    unfold compute_priority_scores at hr
    rw [List.mem_mergeSort] at hr
    obtain ⟨x, hx, rfl⟩ := List.mem_map.mp hr
    rfl

/-- Claim C1, witness: the amended partition evaluated at representative
scores in each band, and the band-of-score link at a concrete scored row. -/
theorem C1_band_partition_witness :
    priority_band (0.3 : ℝ) = some Band.context ∧
    priority_band (0.6 : ℝ) = some Band.followUp ∧
    priority_band (0.8 : ℝ) = some Band.highPriority ∧
    earthScored.priority_band = priority_band earthScored.priority_score :=
  ⟨C1_band_partition_upper_inclusive.1 0.3 (by norm_num) (by norm_num),
    C1_band_partition_upper_inclusive.2.1 0.6 (by norm_num) (by norm_num),
    C1_band_partition_upper_inclusive.2.2.1 0.8 (by norm_num) (by norm_num),
    C1_band_partition_upper_inclusive.2.2.2.2.2 [earthSel] earthScored
      earthScored_mem_sel⟩

/-- Claim C2, counterexample: with a non-empty selection, no cached reference
table and a failed download, `main` propagates the `FileNotFoundError`
raised by `load_authoritative_sample` instead of skipping the cross-check:
the pipeline does not complete. -/
theorem C2_counterexample_missing_reference_fatal :
    main [earthRaw] none none = Except.error PipelineError.authoritativeUnavailable := by
  have h : (select_habitable_inputs [earthRaw]).isEmpty = false := by
    rw [select_earth]
    rfl
  simp [main, h, load_authoritative_sample]

/-- Claim C2, amended: if the authoritative reference table cannot be
obtained at all (no cache and the remote fetch failed), the cross-check stage
is not skipped: `load_authoritative_sample` raises `FileNotFoundError` and
`main` propagates it, so the pipeline fails for every catalog whose selection
is non-empty. -/
theorem C2_missing_reference_raises (catalog : List RawRow)
    (h : (select_habitable_inputs catalog).isEmpty = false) :
    main catalog none none = Except.error PipelineError.authoritativeUnavailable := by
  simp [main, h, load_authoritative_sample]

/-- Claim C2, witness: the amended statement at a one-row catalog whose
selection is non-empty. -/
theorem C2_missing_reference_raises_witness :
    (select_habitable_inputs [earthRaw]).isEmpty = false ∧
    main [earthRaw] none none = Except.error PipelineError.authoritativeUnavailable := by
  have h : (select_habitable_inputs [earthRaw]).isEmpty = false := by
    rw [select_earth]
    rfl
  exact ⟨h, C2_missing_reference_raises [earthRaw] h⟩

/-- Claim C3, counterexample: when the stored priority table is missing,
`validate_priority_table` reports a single availability-failure record and
the remaining checks (among them the band-distribution sanity check
"High-priority proportion") are not run, contradicting the claim that all
documented checks are reported even in that case. -/
theorem C3_counterexample_missing_table_single_record :
    validate_priority_table [] none = Except.ok
      [(⟨"Priority table availability", "fail", "Stored priority scores not found"⟩ :
        ValidationRecord)] ∧
    (validate_priority_table [] none).map (fun recs => recs.length) = Except.ok 1 ∧
    (validate_priority_table [] none).map (fun recs =>
      (recs.map (fun v => v.name)).contains ("High-priority proportion")) =
      Except.ok false := by
  refine ⟨rfl, rfl, rfl⟩

/-- Claim C3, amended: when the stored priority table is missing the harness
returns the single availability-failure record and skips the remaining
checks; when the stored table exists and the recomputed priority table is
non-empty, the four priority-table checks (coverage, score equality,
band-label equality, band-distribution sanity) each run and yield exactly
one ValidationRecord, in order, regardless of individual check outcomes;
when the stored table exists but the recomputed priority table is empty the
harness raises ZeroDivisionError at `1 / len(priority)` and reports no
records. -/
theorem C3_priority_checks_reported (catalog : List RawRow) (st : List StoredRow) :
    validate_priority_table catalog none = Except.ok
      [(⟨"Priority table availability", "fail", "Stored priority scores not found"⟩ :
        ValidationRecord)] ∧
    (compute_priority_scores (select_habitable_inputs catalog) ≠ [] →
      (validate_priority_table catalog (some st)).map (fun recs =>
        recs.map (fun v => v.name)) = Except.ok
          [("Priority candidate coverage"), ("Priority score equality"),
            ("Priority band labels"), ("High-priority proportion")]) ∧
    (compute_priority_scores (select_habitable_inputs catalog) = [] →
      validate_priority_table catalog (some st) =
        Except.error HarnessError.zeroDivisionError) := by
  refine ⟨rfl, ?_, ?_⟩
  · intro h
    have hfalse : (compute_priority_scores (select_habitable_inputs catalog)).isEmpty = false := by
      cases hl : compute_priority_scores (select_habitable_inputs catalog) with
      | nil => exact absurd hl h
      | cons a t => rfl
    simp [validate_priority_table, hfalse, Except.map]
  · intro h
    simp [validate_priority_table, h]

/-- Claim C3, witness: the three branches at concrete inputs — missing
stored table, existing stored table with a non-empty recomputed priority
table, and existing stored table with an empty recomputed priority table. -/
theorem C3_priority_checks_reported_witness :
    validate_priority_table [] none = Except.ok
      [(⟨"Priority table availability", "fail", "Stored priority scores not found"⟩ :
        ValidationRecord)] ∧
    (validate_priority_table [earthRaw] (some [])).map (fun recs =>
      recs.map (fun v => v.name)) = Except.ok
        [("Priority candidate coverage"), ("Priority score equality"),
          ("Priority band labels"), ("High-priority proportion")] ∧
    validate_priority_table [] (some []) =
      Except.error HarnessError.zeroDivisionError := by
  have hne : compute_priority_scores (select_habitable_inputs [earthRaw]) ≠ [] := by
    rw [select_earth, compute_single]
    exact List.cons_ne_nil _ _
  have hempty : compute_priority_scores (select_habitable_inputs ([] : List RawRow)) = [] := by
    simp [compute_priority_scores, select_habitable_inputs]
  exact ⟨(C3_priority_checks_reported [] []).1,
    (C3_priority_checks_reported [earthRaw] []).2.1 hne,
    (C3_priority_checks_reported [] []).2.2 hempty⟩

/-- Claim C5: for every row produced by the Scoring Engine, `priority_score`
equals the weighted mean of the four pillar scores (climate 0.45, structure
0.25, observability 0.22, system 0.08) normalized by the sum of the weights,
to within `1e-6`. -/
theorem C5_priority_weighted_mean (rows : List SelectedRow) (r : ScoredRow)
    (h : r ∈ compute_priority_scores rows) :
    |r.priority_score - (r.climate_score * 0.45 + r.structure_score * 0.25 +
      r.observability_score * 0.22 + r.system_score * 0.08) /
      (0.45 + 0.25 + 0.22 + 0.08)| ≤ 1e-6 := by
  unfold compute_priority_scores at h
  rw [List.mem_mergeSort] at h
  obtain ⟨x, hx, rfl⟩ := List.mem_map.mp h
  show |priority_score x - (climate_score x * 0.45 + structure_score x * 0.25 +
    observability_score x * 0.22 + system_score x * 0.08) /
    (0.45 + 0.25 + 0.22 + 0.08)| ≤ 1e-6
  unfold priority_score
  rw [sub_self, abs_zero]
  norm_num

/-- Claim C5, witness: the weighted-mean identity at a concrete scored row. -/
theorem C5_priority_weighted_mean_witness :
    |earthScored.priority_score - (earthScored.climate_score * 0.45 +
      earthScored.structure_score * 0.25 + earthScored.observability_score * 0.22 +
      earthScored.system_score * 0.08) / (0.45 + 0.25 + 0.22 + 0.08)| ≤ 1e-6 :=
  C5_priority_weighted_mean [earthSel] earthScored earthScored_mem_sel

/-- Claim C9: if the Input Selector's filtered result is empty, `main` raises
the `ValueError` immediately (modelled as `Except.error .emptyInputs`) and
does not proceed to scoring or produce output, whatever the state of the
authoritative reference. -/
theorem C9_empty_selection_fatal (catalog : List RawRow)
    (cache remote : Option (List AuthRow))
    (h : (select_habitable_inputs catalog).isEmpty = true) :
    main catalog cache remote = Except.error PipelineError.emptyInputs := by
  simp [main, h]

/-- Claim C9, witness: the empty catalog selects no rows and `main` fails
with the empty-selection error. -/
theorem C9_empty_selection_fatal_witness :
    (select_habitable_inputs ([] : List RawRow)).isEmpty = true ∧
    main [] none none = Except.error PipelineError.emptyInputs := by
  have h : (select_habitable_inputs ([] : List RawRow)).isEmpty = true := rfl
  exact ⟨h, C9_empty_selection_fatal [] none none h⟩

/-- Claim C10: for every value, midpoint and nonzero width,
`logistic_increasing` and `logistic_decreasing` are exact pointwise
complements: their sum is `1`. -/
theorem C10_logistic_complement (v m w : ℝ) (_hw : w ≠ 0) :
    logistic_increasing v m w + logistic_decreasing v m w = 1 := by
  have hpos := Real.exp_pos ((v - m) / w)
  unfold logistic_increasing logistic_decreasing
  rw [neg_div, Real.exp_neg]
  have h1 : (1 : ℝ) + (Real.exp ((v - m) / w))⁻¹ ≠ 0 := by positivity
  have h2 : (1 : ℝ) + Real.exp ((v - m) / w) ≠ 0 := by positivity
  field_simp
  ring

/-- Claim C10, witness: the complement identity at value 2, midpoint 0,
width 1. -/
theorem C10_logistic_complement_witness :
    (1 : ℝ) ≠ 0 ∧ logistic_increasing 2 0 1 + logistic_decreasing 2 0 1 = 1 :=
  ⟨by norm_num, C10_logistic_complement 2 0 1 (by norm_num)⟩

/-- Claim C6, counterexample: the selector imposes no lower bound on
`sy_dist`, so the row `negDistRaw` with distance `-5` pc is selected and
scored; on it `np.log10(sy_dist)` is NaN in the source, and NaN propagates
through the distance logistic, the observability pillar and the aggregate,
so those scores are NaN rather than reals in `[0, 1]`. -/
theorem C6_counterexample_negative_distance_nan :
    score_row negDistSel ∈ compute_priority_scores (select_habitable_inputs [negDistRaw]) ∧
    distance_score_float negDistSel.sy_dist = none ∧
    observability_score_float negDistSel = none ∧
    priority_score_float negDistSel = none :=
  ⟨negDistScored_mem, distance_score_float_negDist,
    observability_score_float_negDist, priority_score_float_negDist⟩

/-- Claim C6, amended: for every row the Scoring Engine produces from
selected inputs whose distance is positive — the only case in which
`np.log10(sy_dist)` is real-valued, since the selector admits non-positive
distances — every sub-score, every pillar score and the aggregate
`priority_score` lies in `[0, 1]`, and on that domain the idealised model
agrees with the NaN-aware float model of the distance chain. -/
theorem C6_scores_in_unit_interval (raw : List RawRow) (r : ScoredRow)
    (h : r ∈ compute_priority_scores (select_habitable_inputs raw))
    (hd : 0 < r.sy_dist) :
    (0 ≤ r.temp_score ∧ r.temp_score ≤ 1) ∧
    (0 ≤ r.insolation_score ∧ r.insolation_score ≤ 1) ∧
    (0 ≤ r.period_score ∧ r.period_score ≤ 1) ∧
    (0 ≤ r.stellar_temp_score ∧ r.stellar_temp_score ≤ 1) ∧
    (0 ≤ r.radius_score ∧ r.radius_score ≤ 1) ∧
    (0 ≤ r.mass_score ∧ r.mass_score ≤ 1) ∧
    (0 ≤ r.brightness_score ∧ r.brightness_score ≤ 1) ∧
    (0 ≤ r.transit_visibility_score ∧ r.transit_visibility_score ≤ 1) ∧
    (0 ≤ r.distance_score ∧ r.distance_score ≤ 1) ∧
    (0 ≤ r.climate_score ∧ r.climate_score ≤ 1) ∧
    (0 ≤ r.structure_score ∧ r.structure_score ≤ 1) ∧
    (0 ≤ r.observability_score ∧ r.observability_score ≤ 1) ∧
    (0 ≤ r.system_score ∧ r.system_score ≤ 1) ∧
    (0 ≤ r.priority_score ∧ r.priority_score ≤ 1) ∧
    distance_score_float r.sy_dist = some r.distance_score := by
  unfold compute_priority_scores at h
  rw [List.mem_mergeSort] at h
  obtain ⟨x, hx, rfl⟩ := List.mem_map.mp h
  have hd' : 0 < x.sy_dist := hd
  refine ⟨temp_score_bounds x, insolation_score_bounds x, period_score_bounds x,
    stellar_temp_score_bounds x, radius_score_bounds x, mass_score_bounds x,
    brightness_score_bounds x, transit_visibility_score_bounds x,
    distance_score_bounds x, climate_score_bounds x, structure_score_bounds x,
    observability_score_bounds x, system_score_bounds x, priority_score_bounds x, ?_⟩
  show distance_score_float x.sy_dist = some (distance_score x)
  unfold distance_score_float
  rw [if_neg (not_lt.mpr (le_of_lt hd')), if_neg (ne_of_gt hd')]
  rfl

/-- Claim C6, witness: the positive-distance hypothesis and the
unit-interval bounds at the scored row produced from the concrete Earth-like
catalog row (distance 10 pc). -/
theorem C6_scores_in_unit_interval_witness :
    0 < earthScored.sy_dist ∧
    (0 ≤ earthScored.temp_score ∧ earthScored.temp_score ≤ 1) ∧
    (0 ≤ earthScored.insolation_score ∧ earthScored.insolation_score ≤ 1) ∧
    (0 ≤ earthScored.period_score ∧ earthScored.period_score ≤ 1) ∧
    (0 ≤ earthScored.stellar_temp_score ∧ earthScored.stellar_temp_score ≤ 1) ∧
    (0 ≤ earthScored.radius_score ∧ earthScored.radius_score ≤ 1) ∧
    (0 ≤ earthScored.mass_score ∧ earthScored.mass_score ≤ 1) ∧
    (0 ≤ earthScored.brightness_score ∧ earthScored.brightness_score ≤ 1) ∧
    (0 ≤ earthScored.transit_visibility_score ∧ earthScored.transit_visibility_score ≤ 1) ∧
    (0 ≤ earthScored.distance_score ∧ earthScored.distance_score ≤ 1) ∧
    (0 ≤ earthScored.climate_score ∧ earthScored.climate_score ≤ 1) ∧
    (0 ≤ earthScored.structure_score ∧ earthScored.structure_score ≤ 1) ∧
    (0 ≤ earthScored.observability_score ∧ earthScored.observability_score ≤ 1) ∧
    (0 ≤ earthScored.system_score ∧ earthScored.system_score ≤ 1) ∧
    (0 ≤ earthScored.priority_score ∧ earthScored.priority_score ≤ 1) ∧
    distance_score_float earthScored.sy_dist = some earthScored.distance_score := by
  have hd : (0 : ℝ) < earthScored.sy_dist := by
    show (0 : ℝ) < (10 : ℝ)
    norm_num
  exact ⟨hd, C6_scores_in_unit_interval [earthRaw] earthScored earthScored_mem_raw hd⟩

set_option maxHeartbeats 1600000 in
/-- Claim C7: for a proper window `a < b ≤ c < d`, `trapezoidal_membership`
returns 0 for every value at or below `a` and at or above `d`, rises linearly
as `(v - a) / (b - a)` over `[a, b]`, equals 1 on the plateau `[b, c]`, falls
linearly as `(d - v) / (d - c)` over `[c, d]`, and its result always lies in
`[0, 1]`.  Stated at `ℝ`, the instance the scoring engine uses at every
call site (including the irrational `log10` windows of `period_score`). -/
theorem C7_trapezoidal_shape (a b c d : ℝ) (hab : a < b) (hbc : b ≤ c) (hcd : c < d) :
    (∀ v : ℝ, v ≤ a → trapezoidal_membership v a b c d = 0) ∧
    (∀ v : ℝ, d ≤ v → trapezoidal_membership v a b c d = 0) ∧
    (∀ v : ℝ, a ≤ v → v ≤ b → trapezoidal_membership v a b c d = (v - a) / (b - a)) ∧
    (∀ v : ℝ, b ≤ v → v ≤ c → trapezoidal_membership v a b c d = 1) ∧
    (∀ v : ℝ, c ≤ v → v ≤ d → trapezoidal_membership v a b c d = (d - v) / (d - c)) ∧
    (∀ v : ℝ, 0 ≤ trapezoidal_membership v a b c d ∧
      trapezoidal_membership v a b c d ≤ 1) := by
  have hb : (0 : ℝ) < b - a := by linarith
  have hd : (0 : ℝ) < d - c := by linarith
  refine ⟨?_, ?_, ?_, ?_, ?_, ?_⟩
  · intro v hv
    have h1 : (v - a) / (b - a) ≤ 0 :=
      div_nonpos_iff.mpr (Or.inr ⟨by linarith, le_of_lt hb⟩)
    have h2 : (0 : ℝ) ≤ (d - v) / (d - c) := div_nonneg (by linarith) (le_of_lt hd)
    simp only [trapezoidal_membership, np_clip, min_def, max_def]
    split_ifs <;> linarith
  · intro v hv
    have h1 : (0 : ℝ) ≤ (v - a) / (b - a) := div_nonneg (by linarith) (le_of_lt hb)
    have h2 : (d - v) / (d - c) ≤ 0 :=
      div_nonpos_iff.mpr (Or.inr ⟨by linarith, le_of_lt hd⟩)
    simp only [trapezoidal_membership, np_clip, min_def, max_def]
    split_ifs <;> linarith
  · intro v hva hvb
    have h0 : (0 : ℝ) ≤ (v - a) / (b - a) := div_nonneg (by linarith) (le_of_lt hb)
    have h1 : (v - a) / (b - a) ≤ 1 := (div_le_one hb).mpr (by linarith)
    have h2 : (1 : ℝ) ≤ (d - v) / (d - c) := (one_le_div hd).mpr (by linarith)
    simp only [trapezoidal_membership, np_clip, min_def, max_def]
    split_ifs <;> linarith
  · intro v hvb hvc
    have h1 : (1 : ℝ) ≤ (v - a) / (b - a) := (one_le_div hb).mpr (by linarith)
    have h2 : (1 : ℝ) ≤ (d - v) / (d - c) := (one_le_div hd).mpr (by linarith)
    simp only [trapezoidal_membership, np_clip, min_def, max_def]
    split_ifs <;> linarith
  · intro v hvc hvd
    have h0 : (0 : ℝ) ≤ (d - v) / (d - c) := div_nonneg (by linarith) (le_of_lt hd)
    have h1 : (d - v) / (d - c) ≤ 1 := (div_le_one hd).mpr (by linarith)
    have h2 : (1 : ℝ) ≤ (v - a) / (b - a) := (one_le_div hb).mpr (by linarith)
    simp only [trapezoidal_membership, np_clip, min_def, max_def]
    split_ifs <;> linarith
  · intro v
    exact ⟨trapezoidal_membership_nonneg v a b c d, trapezoidal_membership_le_one v a b c d⟩

/-- Claim C7, witness: the trapezoid over window `(0, 1, 2, 3)` evaluated on
the rising ramp, past the upper end, and at a plateau-to-ramp point. -/
theorem C7_trapezoidal_shape_witness :
    ((0 : ℝ) < 1 ∧ (1 : ℝ) ≤ 2 ∧ (2 : ℝ) < 3) ∧
    trapezoidal_membership (1 / 2 : ℝ) 0 1 2 3 = 1 / 2 ∧
    trapezoidal_membership (4 : ℝ) 0 1 2 3 = 0 ∧
    (0 ≤ trapezoidal_membership (5 / 2 : ℝ) 0 1 2 3 ∧
      trapezoidal_membership (5 / 2 : ℝ) 0 1 2 3 ≤ 1) := by
  have h := C7_trapezoidal_shape 0 1 2 3 (by norm_num) (by norm_num) (by norm_num)
  refine ⟨⟨by norm_num, by norm_num, by norm_num⟩, ?_, h.2.1 4 (by norm_num),
    h.2.2.2.2.2 (5 / 2)⟩
  have hramp := h.2.2.1 (1 / 2) (by norm_num) (by norm_num)
  rw [hramp]
  norm_num

/-- Claim C4, counterexample: the cross-checker emits no categorical match
indicator.  With a reference table lacking a `confidence` column (all `none`)
holding the name "Alpha", the comparison of scored rows "Alpha" (present in
the reference) and "Beta" (absent) yields the same single cross-check field
`phl_confidence = none` for both rows, so no output value is "Match" for the
matched row and "Not in reference" for the unmatched one. -/
theorem C4_counterexample_no_match_indicator :
    (compare_with_authoritative [namedScored ("Alpha"), namedScored ("Beta")]
      [⟨"Alpha", none⟩]).map (fun cr => cr.phl_confidence) = [none, none] ∧
    ([(⟨"Alpha", none⟩ : AuthRow)].map (fun a => strip a.pl_name)).contains
      ((namedScored ("Alpha")).pl_name) = true ∧
    ([(⟨"Alpha", none⟩ : AuthRow)].map (fun a => strip a.pl_name)).contains
      ((namedScored ("Beta")).pl_name) = false := by
  refine ⟨rfl, rfl, rfl⟩

/-- Claim C4, amended: for every row of the comparison table, the only
cross-check field is `phl_confidence`, produced by a left join on the
whitespace-stripped reference names: if no reference row's stripped name
equals the row's planet name then `phl_confidence` is absent (`none`);
otherwise the row carries the `confidence` value of a matching reference row
(itself possibly absent).  No categorical "Match" / "Not in reference"
indicator is produced. -/
theorem C4_crosscheck_confidence_join (priority : List ScoredRow)
    (authoritative : List AuthRow) (cr : ComparedRow)
    (h : cr ∈ compare_with_authoritative priority authoritative) :
    (∃ a ∈ authoritative, strip a.pl_name = cr.row.pl_name ∧
      cr.phl_confidence = a.confidence) ∨
    ((∀ a ∈ authoritative, strip a.pl_name ≠ cr.row.pl_name) ∧
      cr.phl_confidence = none) := by
  simp only [compare_with_authoritative] at h
  rw [List.mem_flatMap] at h
  obtain ⟨p, hp, hc⟩ := h
  cases hfil : (authoritative.map (fun a => AuthRow.mk (strip a.pl_name) a.confidence)).filter
      (fun a => a.pl_name == p.pl_name) with
  | nil =>
    rw [hfil] at hc
    simp only [List.mem_singleton] at hc
    subst hc
    right
    refine ⟨?_, rfl⟩
    intro a ha heq
    have hmem : (AuthRow.mk (strip a.pl_name) a.confidence) ∈
        (authoritative.map (fun a => AuthRow.mk (strip a.pl_name) a.confidence)).filter
          (fun a => a.pl_name == p.pl_name) := by
      rw [List.mem_filter]
      refine ⟨List.mem_map_of_mem _ ha, ?_⟩
      simpa using heq
    rw [hfil] at hmem
    exact absurd hmem (List.not_mem_nil _)
  | cons hd tl =>
    rw [hfil] at hc
    rw [List.mem_map] at hc
    obtain ⟨a1, ha1, rfl⟩ := hc
    have ha2 : a1 ∈ (authoritative.map
        (fun a => AuthRow.mk (strip a.pl_name) a.confidence)).filter
          (fun a => a.pl_name == p.pl_name) := by
      rw [hfil]
      exact ha1
    rw [List.mem_filter] at ha2
    obtain ⟨hmem, hbeq⟩ := ha2
    rw [List.mem_map] at hmem
    obtain ⟨a0, ha0, rfl⟩ := hmem
    left
    exact ⟨a0, ha0, by simpa using hbeq, rfl⟩

/-- Claim C4, witness: the join characterization at the unmatched row "Beta"
of the concrete comparison. -/
theorem C4_crosscheck_confidence_join_witness :
    (ComparedRow.mk (namedScored ("Beta")) none) ∈
      compare_with_authoritative [namedScored ("Alpha"), namedScored ("Beta")]
        [⟨"Alpha", none⟩] ∧
    ((∃ a ∈ [(⟨"Alpha", none⟩ : AuthRow)], strip a.pl_name =
        (ComparedRow.mk (namedScored ("Beta")) none).row.pl_name ∧
        (ComparedRow.mk (namedScored ("Beta")) none).phl_confidence = a.confidence) ∨
      ((∀ a ∈ [(⟨"Alpha", none⟩ : AuthRow)], strip a.pl_name ≠
          (ComparedRow.mk (namedScored ("Beta")) none).row.pl_name) ∧
        (ComparedRow.mk (namedScored ("Beta")) none).phl_confidence = none)) := by
  have hmem : (ComparedRow.mk (namedScored ("Beta")) none) ∈
      compare_with_authoritative [namedScored ("Alpha"), namedScored ("Beta")]
        [⟨"Alpha", none⟩] := by
    have hcomp : compare_with_authoritative
        [namedScored ("Alpha"), namedScored ("Beta")] [⟨"Alpha", none⟩] =
        [ComparedRow.mk (namedScored ("Alpha")) none,
          ComparedRow.mk (namedScored ("Beta")) none] := rfl
    rw [hcomp]
    simp
  exact ⟨hmem, C4_crosscheck_confidence_join _ _ _ hmem⟩
